import Mathlib

/-!
Verification of the classification, routing and multi-backend fallback engine
of the Flux universal file converter (`src/main.py`).

The Python source is shallowly embedded: pure string manipulation is embedded
as Lean functions on `String`/`List Char`, the static tables (`FORMAT_MAP`,
`MIME_TO_CATEGORY`, `EXT_TO_CATEGORY`, `EXT_ALIASES`) as association lists,
and the effectful adapters (`convert_pdf*`, `convert_office`,
`convert_spreadsheet`, the `/convert` route) as pure functions over an
explicit environment describing the filesystem and the external tools'
behaviour.  Timeouts of external tools and OS-level faults during file
renames are outside the modelled state space.
-/

namespace Flux

/-! ## Definitions: shallow embedding of `src/main.py` -/

/-- Embedding of Python `str.lower()` (ASCII case mapping, as exercised by the
extension strings the program manipulates). -/
def pyLower (s : String) : String := ⟨s.data.map Char.toLower⟩

/-- Embedding of Python `str.lstrip(".")`: remove every leading `'.'`. -/
def pyLstripDot (s : String) : String := ⟨s.data.dropWhile (fun c => c == '.')⟩

/-- Embedding of Python `str.startswith(p)`. -/
def pyStartsWith (s p : String) : Bool := p.data.isPrefixOf s.data

/-- Split a character list at its last `'.'`: returns `(before, after)`,
or `none` when no dot occurs. -/
def lastSplitDot : List Char → Option (List Char × List Char)
  | [] => none
  | c :: rest =>
    match lastSplitDot rest with
    | some (p, q) => some (c :: p, q)
    | none => if c == '.' then some ([], rest) else none

/-- The final path component, as `pathlib` computes `Path(s).name`
(characters after the last `'/'`, ignoring trailing separators). -/
def pyName (s : String) : String :=
  ⟨((s.data.reverse.dropWhile (fun c => c == '/')).takeWhile (fun c => c != '/')).reverse⟩

/-- Embedding of `pathlib.PurePath.suffix`: the extension of the final
component, i.e. `name[i:]` for `i` the last dot index when `0 < i < len-1`,
else the empty string. -/
def pySuffix (s : String) : String :=
  match lastSplitDot (pyName s).data with
  | none => ""
  | some (p, q) => if p ≠ [] ∧ q ≠ [] then ⟨'.' :: q⟩ else ""

/-- The cleaned extension `ext.lower().lstrip(".")` shared by `normalize_ext`
and the classifier. -/
def cleanExt (s : String) : String := pyLstripDot (pyLower s)

/-- Conversion format suggestions per category. -/
def FORMAT_MAP : List (String × List String) :=
  [("image", ["png", "jpg", "jpeg", "webp", "pdf", "tiff", "tif", "bmp", "gif", "ico"]),
   ("audio", ["mp3", "wav", "ogg", "flac", "aac", "m4a"]),
   ("video", ["mp4", "webm", "gif", "avi", "mov", "mkv"]),
   ("spreadsheet", ["csv", "xlsx", "xls", "pdf"]),
   ("document", ["pdf", "txt", "odt", "docx", "html", "rtf"]),
   ("presentation", ["pdf", "pptx", "odp"]),
   ("pdf", ["png", "jpg", "jpeg", "webp", "txt"])]

def MIME_TO_CATEGORY : List (String × String) :=
  [("image", "image"),
   ("audio", "audio"),
   ("video", "video"),
   ("application/pdf", "pdf"),
   ("application/vnd.openxmlformats-officedocument.spreadsheetml.sheet", "spreadsheet"),
   ("application/vnd.ms-excel", "spreadsheet"),
   ("text/csv", "spreadsheet"),
   ("application/vnd.openxmlformats-officedocument.wordprocessingml.document", "document"),
   ("application/msword", "document"),
   ("text/plain", "document"),
   ("application/vnd.openxmlformats-officedocument.presentationml.presentation", "presentation"),
   ("application/vnd.ms-powerpoint", "presentation")]

def EXT_TO_CATEGORY : List (String × String) :=
  [("jpg", "image"), ("jpeg", "image"), ("png", "image"), ("gif", "image"),
   ("webp", "image"), ("tiff", "image"), ("tif", "image"), ("bmp", "image"),
   ("mp3", "audio"), ("wav", "audio"), ("ogg", "audio"), ("flac", "audio"),
   ("aac", "audio"), ("m4a", "audio"), ("wma", "audio"),
   ("mp4", "video"), ("webm", "video"), ("avi", "video"), ("mov", "video"),
   ("mkv", "video"), ("wmv", "video"), ("flv", "video"),
   ("csv", "spreadsheet"), ("xlsx", "spreadsheet"), ("xls", "spreadsheet"),
   ("docx", "document"), ("doc", "document"), ("txt", "document"), ("odt", "document"),
   ("pptx", "presentation"), ("ppt", "presentation"), ("odp", "presentation"),
   ("pdf", "pdf")]

def EXT_ALIASES : List (String × String) :=
  [("jpeg", "jpg"), ("tif", "tiff")]

/-- Embedding of `normalize_ext` (`src/main.py` lines 107–109):
lower-case, strip leading dots, apply the alias table. -/
def normalize_ext (ext : String) : String :=
  let clean := cleanExt ext
  (EXT_ALIASES.lookup clean).getD clean

/-- Embedding of `detect_category` (`src/main.py` lines 112–125).  The Python
`if mime:` truthiness test treats an empty mime string like `None`. -/
def detect_category (filename : String) (mime : Option String) : String :=
  let ext := pyLower (pyLstripDot (pySuffix filename))
  match EXT_TO_CATEGORY.lookup ext with
  | some cat => cat
  | none =>
    match mime with
    | none => "unknown"
    | some m =>
      if m = "" then "unknown"
      else if pyStartsWith m "image/" then "image"
      else if pyStartsWith m "audio/" then "audio"
      else if pyStartsWith m "video/" then "video"
      else (MIME_TO_CATEGORY.lookup m).getD "unknown"

/-- The categories that can occur in the program: the seven catalog
categories plus the terminal `unknown`. -/
def CATEGORIES : List String :=
  ["image", "audio", "video", "spreadsheet", "document", "presentation", "pdf", "unknown"]

/-- The spec's classifier (§4.1), written from its words: extract the
extension, normalize it (alias table included), look it up in the
extension→category table; on a miss, with a mime hint present, try the
`image/`, `audio/`, `video/` prefixes then the exact mime table; else
`unknown`. -/
def classify_spec (filename : String) (mime : Option String) : String :=
  let ext := normalize_ext (pySuffix filename)
  match EXT_TO_CATEGORY.lookup ext with
  | some cat => cat
  | none =>
    match mime with
    | none => "unknown"
    | some m =>
      if pyStartsWith m "image/" then "image"
      else if pyStartsWith m "audio/" then "audio"
      else if pyStartsWith m "video/" then "video"
      else (MIME_TO_CATEGORY.lookup m).getD "unknown"

/-- The suggestion list computed by `/upload`:
`FORMAT_MAP.get(category, [])` filtered to drop entries whose normalized
form equals the normalized input extension. -/
def upload_suggestions (filename : String) (mime : Option String) : List String :=
  let category := detect_category filename mime
  let input_ext := normalize_ext (pyLstripDot (pySuffix filename))
  ((FORMAT_MAP.lookup category).getD []).filter
    (fun s => !(normalize_ext s == input_ext))

/-- Observable outcome of the `/convert` endpoint up to adapter dispatch. -/
inductive RouteOutcome where
  | notFound
  | rejected (detail : String)
  | dispatched (adapter : String)
  | unsupportedCategory (detail : String)
  deriving DecidableEq, Repr

/-- The spec's `isValidTarget` as the code computes it inline in
`convert_file`: the normalized target is a member of the normalized
catalog row of the category. -/
def isValidTarget (category targetFormat : String) : Bool :=
  (((FORMAT_MAP.lookup category).getD []).map normalize_ext).contains
    (normalize_ext (cleanExt targetFormat))

/-- Embedding of `convert_file` (lines 190–229) up to and including adapter dispatch:
the 404 check, classification with no mime hint, target validation, and the
category dispatch chain. -/
def convert_file (uploadExists : Bool) (filename targetFormat : String) : RouteOutcome :=
  if !uploadExists then .notFound
  else
    let category := detect_category filename none
    let target_raw := cleanExt targetFormat
    let target := normalize_ext target_raw
    let allowed := ((FORMAT_MAP.lookup category).getD []).map normalize_ext
    if !(allowed.contains target) then
      .rejected ("Target ." ++ target_raw ++ " is not supported for " ++ category)
    else if category = "image" then .dispatched "image"
    else if category = "audio" ∨ category = "video" then .dispatched "media"
    else if category = "spreadsheet" then .dispatched "spreadsheet"
    else if category = "document" ∨ category = "presentation" then .dispatched "office"
    else if category = "pdf" then .dispatched "pdf"
    else .unsupportedCategory ("Unsupported category: " ++ category)

/-- What `convert_spreadsheet` did on success. -/
inductive SpreadOutcome where
  | wroteCsv        -- `df.to_csv`, in-process
  | wroteXlsx       -- `df.to_excel`, in-process
  | delegatedOffice -- `convert_office(src, dst, "pdf")`
  deriving DecidableEq, Repr

/-- Embedding of `convert_spreadsheet`: pandas presence check, source parse, then target
dispatch.  `readOk` abstracts whether `pd.read_csv` / `pd.read_excel`
parses the source without raising. -/
def convert_spreadsheet (hasPandas readOk : Bool) (target : String) :
    Except String SpreadOutcome :=
  if !hasPandas then .error "pandas not installed"
  else if !readOk then .error "read error"
  else if target = "csv" then .ok .wroteCsv
  else if target = "xlsx" then .ok .wroteXlsx
  else if target = "pdf" then .ok .delegatedOffice
  else .error ("Unsupported spreadsheet target: " ++ target)

/-- The LibreOffice format-identifier table (identity on all of its keys). -/
def lo_fmt_map : List (String × String) :=
  [("pdf", "pdf"), ("txt", "txt"), ("odt", "odt"),
   ("docx", "docx"), ("html", "html"), ("odp", "odp"),
   ("pptx", "pptx"), ("csv", "csv"), ("xlsx", "xlsx")]

/-- Embedding of `convert_office`, with the filesystem of the destination's parent
directory abstracted as the list of file names present after the external
tool ran.  `loExitZero` is the tool's exit status; `toolFiles` the directory
contents it left behind; `srcStem` is `src.stem` and `dstName` `dst.name`.
On success it returns the directory contents after the reconciliation
rename. -/
def convert_office (loExitZero : Bool) (stderr : String) (toolFiles : List String)
    (srcStem dstName target : String) : Except String (List String) :=
  let lo_format := (lo_fmt_map.lookup target).getD target
  if !loExitZero then .error ("LibreOffice error: " ++ stderr)
  else
    let expected := srcStem ++ "." ++ lo_format
    if toolFiles.contains expected ∧ expected ≠ dstName then
      .ok (dstName :: toolFiles.erase expected)
    else .ok toolFiles

/-- Environment for the PDF conversion chain: capability flags and the
behaviour of the external/in-process renderers on the given source.
Timeouts and OS faults during `Path.replace` are outside the model. -/
structure PdfEnv where
  hasPdfium : Bool            -- HAS_PDFIUM
  openOk : Bool               -- `pdfium.PdfDocument(src)` raises no exception
  numPages : Nat              -- `len(pdf)`
  renderOk : Bool             -- `pdf[0].render(scale=2).to_pil()` raises no exception
  saveOk : Bool               -- `pil_image.save(dst, ...)` raises no exception
  popplerInstalled : Bool     -- `pdftoppm` executable found (else FileNotFoundError)
  popplerExitZero : Bool      -- `pdftoppm` exit status 0
  popplerWrites : List String -- extensions of `dst.stem.*` files pdftoppm left behind
  pdftotextExitZero : Bool
  pdftotextStderr : String
  deriving DecidableEq, Repr

/-- The candidate output names `convert_pdf_with_poppler` probes, by
extension: the target itself, plus `jpeg` when the target is `jpg`. -/
def popplerCandidates (target : String) : List String :=
  [target] ++ (if target = "jpg" then ["jpeg"] else [])

/-- Embedding of `convert_pdf_with_poppler` (lines 332–354): False on missing tool,
non-zero exit, or no candidate output file; True once a candidate exists
(it is then moved onto `dst`). -/
def convert_pdf_with_poppler (env : PdfEnv) (target : String) : Bool :=
  if !env.popplerInstalled then false
  else if !env.popplerExitZero then false
  else (popplerCandidates target).any (fun c => env.popplerWrites.contains c)

/-- The body of the `try:` block of `convert_pdf_with_pdfium`
(lines 361–377), as it executes when `HAS_PDFIUM` holds: `.error` is a
raised exception, `.ok b` a normal `return b`. -/
def pdfium_body (env : PdfEnv) (target : String) : Except String Bool :=
  if !env.openOk then .error "failed to open document"
  else if env.numPages = 0 then .error "PDF has no pages"
  else if !env.renderOk then .error "failed to render page"
  else if target = "jpg" ∨ target = "png" ∨ target = "webp" then
    if !env.saveOk then .error "failed to save image" else .ok true
  else .ok false

/-- Number of pages `convert_pdf_with_pdfium` renders: the first page is
rendered exactly when the document opens and has at least one page. -/
def pdfium_pages_rendered (env : PdfEnv) : Nat :=
  if env.hasPdfium ∧ env.openOk ∧ env.numPages ≠ 0 then 1 else 0

/-- Embedding of `convert_pdf_with_pdfium` (lines 357–382): short-circuit on the
capability flag; every exception raised by the body is swallowed by the
`except Exception: return False` handler. -/
def convert_pdf_with_pdfium (env : PdfEnv) (target : String) : Bool :=
  if !env.hasPdfium then false
  else
    match pdfium_body env target with
    | .ok b => b
    | .error _ => false

/-- The renderers invoked, in order, by one `convert_pdf` call. -/
inductive Backend where
  | poppler
  | pdfium
  | pdftotext
  deriving DecidableEq, Repr

/-- Embedding of `convert_pdf` (lines 308–329): result of the conversion together with
the trace of backends invoked, in invocation order. -/
def convert_pdf (env : PdfEnv) (target : String) :
    Except String Unit × List Backend :=
  if target = "png" ∨ target = "jpg" then
    if convert_pdf_with_poppler env target then (.ok (), [.poppler])
    else if convert_pdf_with_pdfium env target then (.ok (), [.poppler, .pdfium])
    else (.error "No PDF-to-image backend available. Install poppler (pdftoppm) or pypdfium2.",
          [.poppler, .pdfium])
  else if target = "webp" then
    if convert_pdf_with_pdfium env target then (.ok (), [.pdfium])
    else (.error "PDF to WEBP requires pypdfium2.", [.pdfium])
  else if target = "txt" then
    if env.pdftotextExitZero then (.ok (), [.pdftotext])
    else (.error ("pdftotext error: " ++ env.pdftotextStderr), [.pdftotext])
  else (.error ("Unsupported PDF target: " ++ target), [])

/-- Environment of the zero-page scenario: pypdfium2 importable, the
document opens and reports zero pages, poppler not installed. -/
def envC1 : PdfEnv :=
  { hasPdfium := true, openOk := true, numPages := 0, renderOk := true,
    saveOk := true, popplerInstalled := false, popplerExitZero := true,
    popplerWrites := [], pdftotextExitZero := true, pdftotextStderr := "" }

/-- Environment where the Primary Renderer is absent but the Secondary
works on a one-page document. -/
def envC2 : PdfEnv :=
  { hasPdfium := true, openOk := true, numPages := 1, renderOk := true,
    saveOk := true, popplerInstalled := false, popplerExitZero := true,
    popplerWrites := [], pdftotextExitZero := true, pdftotextStderr := "" }

/-! ## Theorems -/

theorem char_toNat_ofNat {n : Nat} (h : n < 55296) : (Char.ofNat n).toNat = n := by
  rw [Char.ofNat, dif_pos (Or.inl h)]
  rfl

theorem toLower_toNat (c : Char) :
    c.toLower.toNat = if c.toNat ≥ 65 ∧ c.toNat ≤ 90 then c.toNat + 32 else c.toNat := by
  rw [Char.toLower]
  split
  · rename_i h
    have hlt : c.toNat + 32 < 55296 := by omega
    simp [char_toNat_ofNat hlt]
  · rfl

theorem char_eq_of_toNat_eq {a b : Char} (h : a.toNat = b.toNat) : a = b :=
  Char.ext (UInt32.toNat.inj h)

theorem toLower_idem (c : Char) : c.toLower.toLower = c.toLower := by
  apply char_eq_of_toNat_eq
  have h1 := toLower_toNat c
  have h2 := toLower_toNat c.toLower
  by_cases h : c.toNat ≥ 65 ∧ c.toNat ≤ 90
  · rw [if_pos h] at h1
    rw [h1] at h2
    rw [if_neg (by omega)] at h2
    rw [h2, h1]
  · rw [if_neg h] at h1
    rw [h1] at h2
    rw [if_neg h] at h2
    rw [h2, h1]

theorem toLower_eq_dot_iff (c : Char) : (c.toLower == '.') = (c == '.') := by
  by_cases hc : c = '.'
  · subst hc; rfl
  · have h := toLower_toNat c
    have hdot : ('.' : Char).toNat = 46 := rfl
    have hne : c.toNat ≠ 46 := by
      intro he
      apply hc
      apply char_eq_of_toNat_eq
      rw [he, hdot]
    have hlow : c.toLower.toNat ≠ 46 := by
      rw [h]
      split <;> omega
    have hne2 : c.toLower ≠ '.' := by
      intro he
      apply hlow
      rw [he]
      exact hdot
    simp [hne2, hc]

theorem map_toLower_idem (l : List Char) :
    (l.map Char.toLower).map Char.toLower = l.map Char.toLower := by
  rw [List.map_map]
  apply List.map_congr_left
  intro a _
  exact toLower_idem a

theorem dropWhile_dot_map_toLower (l : List Char) :
    (l.map Char.toLower).dropWhile (fun c => c == '.') =
      (l.dropWhile (fun c => c == '.')).map Char.toLower := by
  induction l with
  | nil => rfl
  | cons c t ih =>
    simp only [List.map_cons, List.dropWhile_cons]
    rw [toLower_eq_dot_iff]
    cases h : (c == '.') <;> simp [h, ih]

theorem pyLower_pyLower (s : String) : pyLower (pyLower s) = pyLower s :=
  congrArg String.mk (map_toLower_idem s.data)

theorem pyLstripDot_pyLower (s : String) :
    pyLstripDot (pyLower s) = pyLower (pyLstripDot s) :=
  congrArg String.mk (dropWhile_dot_map_toLower s.data)

theorem pyLstripDot_pyLstripDot (s : String) :
    pyLstripDot (pyLstripDot s) = pyLstripDot s :=
  congrArg String.mk (List.dropWhile_idempotent _ _)

theorem cleanExt_idem (s : String) : cleanExt (cleanExt s) = cleanExt s := by
  show pyLstripDot (pyLower (pyLstripDot (pyLower s))) = pyLstripDot (pyLower s)
  rw [← pyLstripDot_pyLower (pyLower s), pyLower_pyLower s, pyLstripDot_pyLstripDot]

theorem normalize_ext_eq (s : String) :
    normalize_ext s =
      if cleanExt s = "jpeg" then "jpg"
      else if cleanExt s = "tif" then "tiff"
      else cleanExt s := by
  unfold normalize_ext EXT_ALIASES
  by_cases h1 : cleanExt s = "jpeg"
  · simp [List.lookup, h1]
  · by_cases h2 : cleanExt s = "tif" <;>
      simp [List.lookup, h1, h2, beq_false_of_ne h1]
    simp [beq_false_of_ne h2]

theorem normalize_ext_ne_jpeg (s : String) : normalize_ext s ≠ "jpeg" := by
  rw [normalize_ext_eq]
  split
  · decide
  · split
    · decide
    · assumption

theorem normalize_ext_ne_tif (s : String) : normalize_ext s ≠ "tif" := by
  rw [normalize_ext_eq]
  split
  · decide
  · split
    · decide
    · assumption

theorem normalize_ext_cleanExt (s : String) :
    normalize_ext (cleanExt s) = normalize_ext s := by
  unfold normalize_ext
  rw [cleanExt_idem]

theorem detect_eq_classify_spec (f : String) (m : Option String) :
    detect_category f m = classify_spec f m := by
  unfold detect_category classify_spec
  rw [show pyLower (pyLstripDot (pySuffix f)) = cleanExt (pySuffix f) from
        (pyLstripDot_pyLower (pySuffix f)).symm]
  rw [normalize_ext_eq (pySuffix f)]
  by_cases h1 : cleanExt (pySuffix f) = "jpeg"
  · rw [if_pos h1, h1]
    rfl
  · rw [if_neg h1]
    by_cases h2 : cleanExt (pySuffix f) = "tif"
    · rw [if_pos h2, h2]
      rfl
    · rw [if_neg h2]
      cases hl : EXT_TO_CATEGORY.lookup (cleanExt (pySuffix f)) with
      | some cat => simp only [hl]
      | none =>
        simp only [hl]
        cases m with
        | none => rfl
        | some mm =>
          by_cases hm : mm = ""
          · subst hm
            rfl
          · simp only [if_neg hm]

theorem normalize_ext_idem (x : String) :
    normalize_ext (normalize_ext x) = normalize_ext x := by
  rw [normalize_ext_eq x]
  by_cases h1 : cleanExt x = "jpeg"
  · rw [if_pos h1]
    decide
  · rw [if_neg h1]
    by_cases h2 : cleanExt x = "tif"
    · rw [if_pos h2]
      decide
    · rw [if_neg h2, normalize_ext_cleanExt, normalize_ext_eq x, if_neg h1, if_neg h2]

/-- C10: extension normalization (lower-case, strip leading dots, apply the
alias table `{jpeg→jpg, tif→tiff}`) is idempotent: for every extension
string `x`, `normalize_ext (normalize_ext x) = normalize_ext x`. -/
theorem C10_normalize_idempotent (x : String) :
    normalize_ext (normalize_ext x) = normalize_ext x :=
  normalize_ext_idem x

/-- C4: for every filename and optional mime hint, `detect_category`
behaves exactly as the spec's classifier algorithm (`classify_spec`):
extension-table lookup of the normalized extension first (mime then
ignored), then the `image/`/`audio/`/`video/` prefix shortcuts, then the
exact mime table, else `unknown`; the function is total so no exception is
raised.  In particular `"report.PDF"` with no hint classifies as `pdf` and
`"data"` with hint `"text/csv"` as `spreadsheet`. -/
theorem C4_classifier_spec (f : String) (m : Option String) :
    detect_category f m = classify_spec f m ∧
    detect_category "report.PDF" none = "pdf" ∧
    detect_category "data" (some "text/csv") = "spreadsheet" :=
  ⟨detect_eq_classify_spec f m, by decide, by decide⟩

/-- C6: for every uploaded file, the suggestion list is the catalog row of
the detected category (empty for `unknown`) with exactly the entries whose
normalized form equals the normalized input extension removed, in catalog
order; consequently it never contains the normalized input extension. -/
theorem C6_suggestions (f : String) (m : Option String) :
    upload_suggestions f m =
      ((FORMAT_MAP.lookup (detect_category f m)).getD []).filter
        (fun s => !(normalize_ext s == normalize_ext (pyLstripDot (pySuffix f)))) ∧
    normalize_ext (pyLstripDot (pySuffix f)) ∉ upload_suggestions f m ∧
    (detect_category f m = "unknown" → upload_suggestions f m = []) := by
  refine ⟨rfl, ?_, ?_⟩
  · intro hx
    rw [upload_suggestions] at hx
    have h := (List.mem_filter.mp hx).2
    rw [normalize_ext_idem] at h
    simp at h
  · intro hu
    rw [upload_suggestions, hu]
    rfl

theorem C6_witness :
    normalize_ext (pyLstripDot (pySuffix "photo.jpg")) ∉ upload_suggestions "photo.jpg" none ∧
    upload_suggestions "data.xyz" none = [] :=
  ⟨(C6_suggestions "photo.jpg" none).2.1, (C6_suggestions "data.xyz" none).2.2 (by decide)⟩

/-- An element not equal to `"jpeg"` or `"tif"` is in the normalized image
row iff it is in the literal image catalog row. -/
theorem contains_image_row (n : String) (hj : n ≠ "jpeg") (ht : n ≠ "tif") :
    (["png", "jpg", "jpg", "webp", "pdf", "tiff", "tiff", "bmp", "gif", "ico"] :
        List String).contains n =
      (["png", "jpg", "jpeg", "webp", "pdf", "tiff", "tif", "bmp", "gif", "ico"] :
        List String).contains n := by
  rw [Bool.eq_iff_iff]
  simp only [List.contains_cons, List.contains_nil, Bool.or_eq_true, beq_iff_eq]
  constructor <;> intro h <;> tauto

/-- The analogous fact for the pdf catalog row. -/
theorem contains_pdf_row (n : String) (hj : n ≠ "jpeg") :
    (["png", "jpg", "jpg", "webp", "txt"] : List String).contains n =
      (["png", "jpg", "jpeg", "webp", "txt"] : List String).contains n := by
  rw [Bool.eq_iff_iff]
  simp only [List.contains_cons, List.contains_nil, Bool.or_eq_true, beq_iff_eq]
  constructor <;> intro h <;> tauto

/-- C5: for every category and target extension string `t`, validation
succeeds iff the normalized form of `t` is a literal member of the
category's catalog row (empty for `unknown`), independent of the input
file's own extension; and a request failing validation is rejected with
the `UnsupportedTarget` detail naming the rejected extension and the
category, with no adapter dispatched. -/
theorem C5_target_validation (c t : String) (hc : c ∈ CATEGORIES)
    (filename tf : String)
    (hv : isValidTarget (detect_category filename none) tf = false) :
    isValidTarget c t =
      ((FORMAT_MAP.lookup c).getD []).contains (normalize_ext t) ∧
    convert_file true filename tf =
      .rejected ("Target ." ++ cleanExt tf ++ " is not supported for " ++
        detect_category filename none) := by
  constructor
  · rw [show isValidTarget c t =
          ((((FORMAT_MAP.lookup c).getD []).map normalize_ext).contains
            (normalize_ext t)) from by rw [isValidTarget, normalize_ext_cleanExt]]
    fin_cases hc
    · exact contains_image_row _ (normalize_ext_ne_jpeg t) (normalize_ext_ne_tif t)
    · rfl
    · rfl
    · rfl
    · rfl
    · rfl
    · exact contains_pdf_row _ (normalize_ext_ne_jpeg t)
    · rfl
  · have hv' : ((((FORMAT_MAP.lookup (detect_category filename none)).getD []).map
        normalize_ext).contains (normalize_ext (cleanExt tf))) = false := hv
    simp only [convert_file, Bool.not_true, Bool.not_false, if_false, hv', if_true]
    simp

theorem C5_witness :
    "audio" ∈ CATEGORIES ∧
    isValidTarget (detect_category "song.mp3" none) "bmp" = false ∧
    (isValidTarget "audio" "bmp" =
        ((FORMAT_MAP.lookup "audio").getD []).contains (normalize_ext "bmp") ∧
      convert_file true "song.mp3" "bmp" =
        .rejected ("Target ." ++ cleanExt "bmp" ++ " is not supported for " ++
          detect_category "song.mp3" none)) :=
  ⟨by decide, by decide,
    C5_target_validation "audio" "bmp" (by decide) "song.mp3" "bmp" (by decide)⟩

/-- A value returned by an association-list lookup is one of the list's
values. -/
theorem lookup_val_mem {α β : Type} [BEq α] (l : List (α × β)) (k : α) (v : β)
    (h : l.lookup k = some v) : v ∈ l.map Prod.snd := by
  induction l with
  | nil => simp [List.lookup] at h
  | cons p rest ih =>
    obtain ⟨a, b⟩ := p
    rw [List.lookup] at h
    cases hk : (k == a) with
    | true =>
      rw [hk] at h
      simp at h
      simp [h]
    | false =>
      rw [hk] at h
      simp only [List.map_cons, List.mem_cons]
      exact Or.inr (ih h)

/-- Everything `detect_category` can return is one of the seven catalog
categories or `unknown`. -/
theorem detect_category_mem (f : String) (m : Option String) :
    detect_category f m ∈ CATEGORIES := by
  have hext : ∀ x ∈ EXT_TO_CATEGORY.map Prod.snd, x ∈ CATEGORIES := by decide
  have hmime : ∀ x ∈ MIME_TO_CATEGORY.map Prod.snd, x ∈ CATEGORIES := by decide
  rw [detect_category.eq_def]
  cases h : EXT_TO_CATEGORY.lookup (pyLower (pyLstripDot (pySuffix f))) with
  | some cat =>
    simp only [h]
    exact hext _ (lookup_val_mem _ _ _ h)
  | none =>
    simp only [h]
    cases m with
    | none => decide
    | some mm =>
      by_cases h0 : mm = ""
      · simp only [if_pos h0]
        decide
      · simp only [if_neg h0]
        by_cases hi : pyStartsWith mm "image/" = true
        · simp only [if_pos hi]
          decide
        · simp only [if_neg hi]
          by_cases ha : pyStartsWith mm "audio/" = true
          · simp only [if_pos ha]
            decide
          · simp only [if_neg ha]
            by_cases hv : pyStartsWith mm "video/" = true
            · simp only [if_pos hv]
              decide
            · simp only [if_neg hv]
              cases hm : MIME_TO_CATEGORY.lookup mm with
              | some cat =>
                simp only [hm, Option.getD_some]
                exact hmime _ (lookup_val_mem _ _ _ hm)
              | none =>
                simp only [hm, Option.getD_none]
                decide

/-- Any `/convert` request against a file whose classification (done with no
mime hint) is `unknown` is rejected at target validation. -/
theorem route_unknown_rejected (f : String) (hd : detect_category f none = "unknown")
    (t : String) :
    convert_file true f t =
      .rejected ("Target ." ++ cleanExt t ++ " is not supported for " ++ "unknown") := by
  simp only [convert_file, hd,
    show List.lookup "unknown" FORMAT_MAP = none from by decide,
    Option.getD_none, List.map_nil, List.contains_nil, Bool.not_true, Bool.not_false]
  simp

/-- C8: `/convert` classifies from the request's filename alone with no mime
hint; hence for every file whose extension is absent from the
extension→category table (one whose upload-time category came only from a
mime type), every conversion request fails target validation with the
unsupported-target rejection — even for targets listed in the upload
response's suggestions. -/
theorem C8_convert_ignores_mime (filename tf : String)
    (h : List.lookup (pyLower (pyLstripDot (pySuffix filename))) EXT_TO_CATEGORY = none) :
    detect_category filename none = "unknown" ∧
    convert_file true filename tf =
      .rejected ("Target ." ++ cleanExt tf ++ " is not supported for " ++ "unknown") ∧
    ∀ (m : Option String) (t : String), t ∈ upload_suggestions filename m →
      convert_file true filename t =
        .rejected ("Target ." ++ cleanExt t ++ " is not supported for " ++ "unknown") := by
  have hd : detect_category filename none = "unknown" := by
    simp only [detect_category, h]
  exact ⟨hd, route_unknown_rejected filename hd tf,
    fun m t _ => route_unknown_rejected filename hd t⟩

theorem C8_witness :
    List.lookup (pyLower (pyLstripDot (pySuffix "picture.heic"))) EXT_TO_CATEGORY = none ∧
    detect_category "picture.heic" (some "image/heic") = "image" ∧
    "png" ∈ upload_suggestions "picture.heic" (some "image/heic") ∧
    convert_file true "picture.heic" "png" =
      .rejected ("Target ." ++ cleanExt "png" ++ " is not supported for " ++ "unknown") :=
  ⟨by decide, by decide, by decide,
    (C8_convert_ignores_mime "picture.heic" "png" (by decide)).2.1⟩

/-- C9: a request whose detected category is `unknown` has an empty allowed
target set, so it always fails validation before adapter dispatch; and the
router's `Unsupported category` branch is unreachable: no input produces the
`unsupportedCategory` outcome. -/
theorem C9_unsupported_category_unreachable (e : Bool) (f t : String) :
    (detect_category f none = "unknown" →
      convert_file true f t =
        .rejected ("Target ." ++ cleanExt t ++ " is not supported for " ++ "unknown")) ∧
    ∀ d, convert_file e f t ≠ .unsupportedCategory d := by
  constructor
  · intro hd
    exact route_unknown_rejected f hd t
  · intro d
    cases e with
    | false => simp [convert_file]
    | true =>
      have hmem := detect_category_mem f none
      simp only [CATEGORIES, List.mem_cons, List.not_mem_nil, or_false] at hmem
      rcases hmem with h | h | h | h | h | h | h | h
      · simp only [convert_file, h]
        split <;> try simp
        split <;> simp
      · simp only [convert_file, h]
        split <;> try simp
        split <;> simp
      · simp only [convert_file, h]
        split <;> try simp
        split <;> simp
      · simp only [convert_file, h]
        split <;> try simp
        split <;> simp
      · simp only [convert_file, h]
        split <;> try simp
        split <;> simp
      · simp only [convert_file, h]
        split <;> try simp
        split <;> simp
      · simp only [convert_file, h]
        split <;> try simp
        split <;> simp
      · rw [route_unknown_rejected f h t]
        simp

theorem C9_witness :
    detect_category "data.xyz" none = "unknown" ∧
    convert_file true "data.xyz" "png" =
      .rejected ("Target ." ++ cleanExt "png" ++ " is not supported for " ++ "unknown") ∧
    convert_file true "data.xyz" "png" ≠
      .unsupportedCategory "Unsupported category: unknown" :=
  ⟨by decide,
    (C9_unsupported_category_unreachable true "data.xyz" "png").1 (by decide),
    (C9_unsupported_category_unreachable true "data.xyz" "png").2 "Unsupported category: unknown"⟩

/-- C3: spreadsheet conversions serialize `csv` and `xlsx` in-process,
delegate `pdf` to the Office adapter, and unconditionally fail with
`Unsupported spreadsheet target` on every other target — including `xls`,
which sits in the spreadsheet catalog row, so the Router accepts it and
dispatches to the adapter anyway. -/
theorem C3_spreadsheet_targets (t : String) :
    convert_spreadsheet true true "csv" = .ok .wroteCsv ∧
    convert_spreadsheet true true "xlsx" = .ok .wroteXlsx ∧
    convert_spreadsheet true true "pdf" = .ok .delegatedOffice ∧
    (t ≠ "csv" → t ≠ "xlsx" → t ≠ "pdf" →
      convert_spreadsheet true true t =
        .error ("Unsupported spreadsheet target: " ++ t)) ∧
    isValidTarget "spreadsheet" "xls" = true ∧
    convert_file true "table.csv" "xls" = .dispatched "spreadsheet" := by
  refine ⟨rfl, rfl, rfl, ?_, by decide, by decide⟩
  intro h1 h2 h3
  simp [convert_spreadsheet, h1, h2, h3]

theorem C3_witness :
    ("xls" : String) ≠ "csv" ∧ ("xls" : String) ≠ "xlsx" ∧ ("xls" : String) ≠ "pdf" ∧
    convert_spreadsheet true true "xls" =
      .error ("Unsupported spreadsheet target: " ++ "xls") :=
  ⟨by decide, by decide, by decide,
    (C3_spreadsheet_targets "xls").2.2.2.1 (by decide) (by decide) (by decide)⟩

/-- The LibreOffice format table is the identity on every target. -/
theorem lo_fmt_map_id (t : String) : (lo_fmt_map.lookup t).getD t = t := by
  simp only [lo_fmt_map, List.lookup]
  repeat' split
  all_goals simp_all

/-- C7: after a successful external office run, the adapter computes the
externally-produced path as the destination directory joined with the
source stem plus the target-format extension (the format table being the
identity); if that file exists and differs from the intended destination it
is renamed onto it, and if the two names coincide (or no such file exists)
nothing is renamed. -/
theorem C7_office_resolver (stderr : String) (toolFiles : List String)
    (srcStem dstName target : String) :
    (lo_fmt_map.lookup target).getD target = target ∧
    (toolFiles.contains (srcStem ++ "." ++ target) = true →
      (srcStem ++ "." ++ target) ≠ dstName →
      convert_office true stderr toolFiles srcStem dstName target =
        .ok (dstName :: toolFiles.erase (srcStem ++ "." ++ target))) ∧
    ((srcStem ++ "." ++ target) = dstName ∨
        toolFiles.contains (srcStem ++ "." ++ target) = false →
      convert_office true stderr toolFiles srcStem dstName target = .ok toolFiles) := by
  refine ⟨lo_fmt_map_id target, ?_, ?_⟩
  · intro hc hne
    simp only [convert_office, lo_fmt_map_id target, Bool.not_true, Bool.not_false]
    rw [if_neg (by simp), if_pos ⟨hc, hne⟩]
  · intro h
    simp only [convert_office, lo_fmt_map_id target, Bool.not_true, Bool.not_false]
    rw [if_neg (by simp), if_neg]
    rcases h with h | h
    · intro hcon
      exact hcon.2 h
    · intro hcon
      rw [h] at hcon
      exact absurd hcon.1 (by simp)

theorem C7_witness :
    (["notes.pdf"] : List String).contains ("notes" ++ "." ++ "pdf") = true ∧
    ("notes" ++ "." ++ "pdf") ≠ "a1_notes.pdf" ∧
    convert_office true "" ["notes.pdf"] "notes" "a1_notes.pdf" "pdf" =
      .ok ("a1_notes.pdf" :: (["notes.pdf"] : List String).erase ("notes" ++ "." ++ "pdf")) :=
  ⟨by decide, by decide,
    (C7_office_resolver "" ["notes.pdf"] "notes" "a1_notes.pdf" "pdf").2.1
      (by decide) (by decide)⟩

/-- Primary-renderer failure characterization: `convert_pdf_with_poppler`
reports failure exactly when the tool is
absent, exits non-zero, or left no candidate output file. -/
theorem poppler_false_iff (env : PdfEnv) (t : String) :
    convert_pdf_with_poppler env t = false ↔
      (env.popplerInstalled = false ∨ env.popplerExitZero = false ∨
        ∀ c ∈ popplerCandidates t, env.popplerWrites.contains c = false) := by
  unfold convert_pdf_with_poppler
  cases hi : env.popplerInstalled <;> cases hz : env.popplerExitZero <;>
    simp [List.any_eq_false]

/-- C1 is false as stated: with a zero-page source and `pdftoppm` absent,
the Secondary Renderer raises the empty-document error internally
(`pdfium_body` ends in `error "PDF has no pages"`), but the reported
outcome of the png conversion is the aggregate backend-exhausted message,
not that failure. -/
theorem C1_counterexample :
    envC1.numPages = 0 ∧
    envC1.hasPdfium = true ∧
    Backend.pdfium ∈ (convert_pdf envC1 "png").2 ∧
    pdfium_body envC1 "png" = .error "PDF has no pages" ∧
    (convert_pdf envC1 "png").1 =
      .error "No PDF-to-image backend available. Install poppler (pdftoppm) or pypdfium2." ∧
    (convert_pdf envC1 "png").1 ≠ .error "PDF has no pages" := by
  refine ⟨rfl, rfl, by decide, rfl, rfl, ?_⟩
  intro h
  have he : (convert_pdf envC1 "png").1 =
      .error "No PDF-to-image backend available. Install poppler (pdftoppm) or pypdfium2." := rfl
  rw [he] at h
  injection h with h'
  exact absurd h' (by decide)

/-- C1 (amended): for every image-like target, when the Secondary Renderer
is reached on a zero-page source it raises the empty-document error before
any page is rendered and reports failure; that error is swallowed by the
`except Exception` handler, so the conversion's reported outcome is the
aggregate backend-exhausted message (png/jpg) or the webp-specific message,
not the empty-document error. -/
theorem C1_empty_pdf (env : PdfEnv) (t : String)
    (ht : t = "png" ∨ t = "jpg" ∨ t = "webp")
    (hp : env.hasPdfium = true) (ho : env.openOk = true) (hn : env.numPages = 0) :
    pdfium_body env t = .error "PDF has no pages" ∧
    pdfium_pages_rendered env = 0 ∧
    convert_pdf_with_pdfium env t = false ∧
    ((t = "png" ∨ t = "jpg") → convert_pdf_with_poppler env t = false →
      (convert_pdf env t).1 =
        .error "No PDF-to-image backend available. Install poppler (pdftoppm) or pypdfium2.") ∧
    (t = "webp" → (convert_pdf env t).1 = .error "PDF to WEBP requires pypdfium2.") := by
  have hbody : pdfium_body env t = .error "PDF has no pages" := by
    simp [pdfium_body, ho, hn]
  have hpag : pdfium_pages_rendered env = 0 := by
    simp [pdfium_pages_rendered, hn]
  have hfail : convert_pdf_with_pdfium env t = false := by
    simp [convert_pdf_with_pdfium, hp, hbody]
  refine ⟨hbody, hpag, hfail, ?_, ?_⟩
  · intro himg hpop
    rw [convert_pdf, if_pos himg, if_neg (by simp [hpop]), if_neg (by simp [hfail])]
  · intro hw
    subst hw
    rw [convert_pdf, if_neg (by simp), if_pos rfl, if_neg (by simp [hfail])]

theorem C1_witness :
    pdfium_body envC1 "png" = .error "PDF has no pages" ∧
    pdfium_pages_rendered envC1 = 0 ∧
    convert_pdf_with_pdfium envC1 "png" = false ∧
    (convert_pdf envC1 "png").1 =
      .error "No PDF-to-image backend available. Install poppler (pdftoppm) or pypdfium2." :=
  let h := C1_empty_pdf envC1 "png" (Or.inl rfl) rfl rfl rfl
  ⟨h.1, h.2.1, h.2.2.1, h.2.2.2.1 (Or.inl rfl) (by decide)⟩

/-- C2: for png/jpg PDF conversions the Primary Renderer is always tried
first; the Secondary Renderer is tried exactly when the Primary failed,
and the Primary fails exactly when the tool is absent, exits non-zero or
produced no candidate output file; a Secondary success after a Primary
failure is reported as overall success; and when both fail, the single
failure message names both backends. -/
theorem C2_pdf_fallback_chain (env : PdfEnv) (t : String)
    (ht : t = "png" ∨ t = "jpg") :
    (convert_pdf env t).2.head? = some Backend.poppler ∧
    (Backend.pdfium ∈ (convert_pdf env t).2 ↔
      convert_pdf_with_poppler env t = false) ∧
    (convert_pdf_with_poppler env t = false ↔
      (env.popplerInstalled = false ∨ env.popplerExitZero = false ∨
        ∀ c ∈ popplerCandidates t, env.popplerWrites.contains c = false)) ∧
    (convert_pdf_with_poppler env t = true →
      (convert_pdf env t).1 = .ok () ∧ (convert_pdf env t).2 = [Backend.poppler]) ∧
    (convert_pdf_with_poppler env t = false → convert_pdf_with_pdfium env t = true →
      (convert_pdf env t).1 = .ok () ∧
      (convert_pdf env t).2 = [Backend.poppler, Backend.pdfium]) ∧
    (convert_pdf_with_poppler env t = false → convert_pdf_with_pdfium env t = false →
      (convert_pdf env t).1 =
        .error "No PDF-to-image backend available. Install poppler (pdftoppm) or pypdfium2.") := by
  rw [convert_pdf, if_pos ht]
  have hpf := poppler_false_iff env t
  cases hb : convert_pdf_with_poppler env t with
  | true =>
    rw [hb] at hpf
    exact ⟨rfl, by simp, hpf, fun _ => ⟨rfl, rfl⟩, by simp, by simp⟩
  | false =>
    rw [hb] at hpf
    cases hs : convert_pdf_with_pdfium env t with
    | true =>
      exact ⟨rfl, by simp, hpf, by simp, fun _ _ => ⟨rfl, rfl⟩, by simp⟩
    | false =>
      exact ⟨rfl, by simp, hpf, by simp, by simp, fun _ _ => rfl⟩

theorem C2_witness :
    (("png" : String) = "png" ∨ ("png" : String) = "jpg") ∧
    (convert_pdf envC2 "png").2.head? = some Backend.poppler ∧
    (convert_pdf envC2 "png").1 = .ok () ∧
    (convert_pdf envC2 "png").2 = [Backend.poppler, Backend.pdfium] :=
  let h := C2_pdf_fallback_chain envC2 "png" (Or.inl rfl)
  ⟨Or.inl rfl, h.1, (h.2.2.2.2.1 (by decide) (by decide)).1,
    (h.2.2.2.2.1 (by decide) (by decide)).2⟩

end Flux
